import Mathlib

/-!
Shallow embedding of the ElectroVault inventory application (`app.py`).

The data layer is a pandas DataFrame held in session state and persisted as a
JSON array.  We model a DataFrame row as `Record`, the session DataFrame as a
`List Record` together with a flag recording whether the extra `item_value`
column exists (the Analytics view adds it in place), and the backing file as
the structured value that `json.dump(df.to_dict(orient="records"))` writes.
Number values follow the JSON distinction between ints and floats; floats are
modelled as rationals.
-/

namespace ElectroVault

/-- A JSON scalar as written by `json.dump` on a value taken from a DataFrame:
an int, a float (modelled as a rational; `jnan` stands for the non-standard
`NaN` that `json.dump` emits for a missing float cell), or a string. -/
inductive JVal where
  | jint (n : Int)
  | jfloat (q : Rat)
  | jstr (s : String)
  | jnan
deriving DecidableEq, Repr

/-- One row of the inventory DataFrame.  The five schema columns are `id`,
`name`, `category`, `price`, `qty`.  `item_value` is `some v` exactly when the
DataFrame has the `item_value` column (added in place by the Analytics view via
`df['item_value'] = df['price'] * df['qty']`) and this row's cell holds `v`;
`none` means the cell would be `NaN` (or the column is absent). -/
structure Record where
  id : Int
  name : String
  category : String
  price : Rat
  qty : Int
  item_value : Option Rat := none
deriving DecidableEq, Repr

/-- The serialized form of one record: the key/value list of the JSON object
that `df.to_dict(orient="records")` produces for the row (keys in DataFrame
column order). -/
abbrev SavedRec := List (String × JVal)

/-- Serialization of one row, `app.py` line 44 (`df.to_dict(orient="records")`).
Columns are `id, name, category, price, qty` in construction order; when the
DataFrame carries the `item_value` column (`hasIV`) it appears last, with `NaN`
for rows whose cell is missing (rows added after the Analytics view ran). -/
def savedRecord (hasIV : Bool) (r : Record) : SavedRec :=
  [("id", JVal.jint r.id), ("name", JVal.jstr r.name),
   ("category", JVal.jstr r.category), ("price", JVal.jfloat r.price),
   ("qty", JVal.jint r.qty)]
  ++ (if hasIV then
        [("item_value", match r.item_value with
          | some q => JVal.jfloat q
          | none => JVal.jnan)]
      else [])

/-- `save_data` (`app.py` lines 42-46): the array of objects written to the
backing file for a given DataFrame (records plus column set). -/
def save_data (inv : List Record) (hasIV : Bool) : List SavedRec :=
  inv.map (savedRecord hasIV)

/-- Session state relevant to the data layer: the in-memory DataFrame
(`st.session_state.inventory`, as records + presence of the `item_value`
column) and the current content of the backing file (`none` = file absent). -/
structure AppState where
  inventory : List Record
  hasItemValue : Bool
  file : Option (List SavedRec)
deriving DecidableEq, Repr

/-- The value `pd.to_numeric(x, errors='coerce')` gives for one raw `price` or
`qty` cell of the backing file: `parsable q` when the JSON value parses to the
number `q`, `unparsable` when the result is `NaN`. -/
inductive RawVal where
  | parsable (q : Rat)
  | unparsable
deriving DecidableEq, Repr

/-- One object of a well-formed backing file (a JSON array of objects carrying
the five schema keys): `id`, `name`, `category` are taken as stored, `price`
and `qty` are abstracted by how `pd.to_numeric` reads them. -/
structure RawRecord where
  id : Int
  name : String
  category : String
  price : RawVal
  qty : RawVal
deriving DecidableEq, Repr

/-- The situations `load_data` distinguishes: missing file; a file whose
reading fails inside the `try` block (not valid JSON, or a value on which the
DataFrame construction or the `df['price']` / `df['qty']` column accesses
raise); or a JSON array of well-formed record objects. -/
inductive LoadInput where
  | absent
  | invalid
  | records (rs : List RawRecord)
deriving DecidableEq, Repr

/-- Truncation toward zero, the effect of numpy `astype(int)` on a float. -/
def ratTrunc (q : Rat) : Int := if 0 ≤ q then ⌊q⌋ else ⌈q⌉

/-- `df['price'] = pd.to_numeric(df['price'], errors='coerce').fillna(0)`
(`app.py` line 34): unparsable cells become `0`, numeric values are kept. -/
def coercePrice : RawVal → Rat
  | .parsable q => q
  | .unparsable => 0

/-- `df['qty'] = pd.to_numeric(...).fillna(0).astype(int)` (`app.py` line 35):
unparsable cells become `0`, numeric values are truncated to an integer. -/
def coerceQty : RawVal → Int
  | .parsable q => ratTrunc q
  | .unparsable => 0

/-- The in-memory record produced for one file object by `load_data`'s
coercions; a 5-key file object yields no `item_value` column. -/
def coerceRecord (raw : RawRecord) : Record :=
  { id := raw.id, name := raw.name, category := raw.category,
    price := coercePrice raw.price, qty := coerceQty raw.qty,
    item_value := none }

/-- The four seeded default records (`app.py` lines 21-26). -/
def defaultData : List Record :=
  [ { id := 1, name := "GeForce RTX 4090", category := "GPU",
      price := 109990, qty := 3 },
    { id := 2, name := "MacBook Pro M2", category := "Laptop",
      price := 84990, qty := 8 },
    { id := 3, name := "Samsung S24 Ultra", category := "Mobile",
      price := 75990, qty := 12 },
    { id := 4, name := "Sony WH-1000XM5", category := "Accessory",
      price := 18999, qty := 25 } ]

/-- What `load_data` returns: the store, plus whether `st.error` was shown. -/
structure LoadResult where
  store : List Record
  errorShown : Bool
deriving DecidableEq, Repr

/-- `load_data` (`app.py` lines 18-40).  Missing file: the seeded defaults.
A file the `try` block cannot process: error shown, empty store.  An empty
JSON array: `pd.DataFrame([])` has no columns, so `df['price']` raises
`KeyError`, which the `except` catches — error shown, empty store.  A
non-empty array of record objects: each object coerced by `coerceRecord`. -/
def load_data : LoadInput → LoadResult
  | .absent => ⟨defaultData, false⟩
  | .invalid => ⟨[], true⟩
  | .records [] => ⟨[], true⟩
  | .records (r :: rs) => ⟨(r :: rs).map coerceRecord, false⟩

/-- `add_item_callback` (`app.py` lines 61-82).  Empty name: error shown
(`Bool` result `true`), state untouched, nothing saved.  Otherwise a record
with id `clockMillis` (`int(time.time() * 1000)`) is prepended
(`pd.concat([new_row, inventory])`) and the store is saved; the new row has no
`item_value` cell (it becomes `NaN` if that column exists). -/
def add_item_callback (st : AppState) (new_name new_cat : String)
    (new_price : Rat) (new_qty : Int) (clockMillis : Int) : AppState × Bool :=
  if new_name = "" then (st, true)
  else
    let new_row : Record :=
      { id := clockMillis, name := new_name, category := new_cat,
        price := new_price, qty := new_qty, item_value := none }
    let inv := new_row :: st.inventory
    ({ inventory := inv, hasItemValue := st.hasItemValue,
       file := some (save_data inv st.hasItemValue) }, false)

/-- `delete_item_callback` (`app.py` lines 84-89): keep the rows whose `id`
differs (`df[df['id'] != item_id]`), then save. -/
def delete_item_callback (st : AppState) (item_id : Int) : AppState :=
  let inv := st.inventory.filter (fun r => r.id != item_id)
  { inventory := inv, hasItemValue := st.hasItemValue,
    file := some (save_data inv st.hasItemValue) }

/-- The PURGE ALL DATA handler (`app.py` lines 438-444): the store is replaced
by a fresh empty DataFrame with the five schema columns (so no `item_value`
column) and saved. -/
def purgeAll (_st : AppState) : AppState :=
  { inventory := [], hasItemValue := false,
    file := some (save_data [] false) }

/-- The in-place mutation performed by the Analytics view (`app.py` lines
395-398): when the store is non-empty, `df['item_value'] = df['price'] *
df['qty']` adds the `item_value` column to the session DataFrame itself (no
`.copy()` is taken, unlike for the chart data).  Nothing is saved here. -/
def renderAnalytics (st : AppState) : AppState :=
  if st.inventory = [] then st
  else
    { inventory :=
        st.inventory.map (fun r => { r with item_value := some (r.price * r.qty) }),
      hasItemValue := true, file := st.file }

/-- The Settings-view export (`app.py` line 420):
`df.to_json(orient="records")` serializes the same records with the same keys
in the same column order as `save_data` (only whitespace/number formatting of
the text differs, which this structural model does not distinguish). -/
def export_json (st : AppState) : List SavedRec :=
  save_data st.inventory st.hasItemValue

/-! ### The Inventory-view search filter

`df_display = df[df['name'].str.contains(q, case=False, na=False) | ...]`
(`app.py` lines 303-308).  `pd.Series.str.contains` treats the query as a
regular expression (`regex=True` is the default) and matches it
case-insensitively anywhere in the field (`re.search` with `re.IGNORECASE`).
We model the fragment of Python regular expressions in which every character
of the pattern is either a literal (a non-metacharacter) or `.` (any character
except a newline); a pattern using any other metacharacter is outside the
model (`parsePat` returns `none`). -/

/-- A token of the modelled regular-expression fragment. -/
inductive RTok where
  | lit (c : Char)
  | dot
deriving DecidableEq, Repr

/-- Python `re` metacharacters. -/
def isRegexMeta (c : Char) : Bool :=
  c ∈ ['.', '^', '$', '*', '+', '?', '{', '}', '[', ']', '\\', '|', '(', ')']

/-- Whether one token matches one character under `re.IGNORECASE`:
a literal compares lowercased, `.` matches anything but a newline. -/
def tokMatches : RTok → Char → Bool
  | .lit a, c => a.toLower == c.toLower
  | .dot, c => c != '\n'

/-- Whether the token list matches a prefix of the character list. -/
def matchHere : List RTok → List Char → Bool
  | [], _ => true
  | _ :: _, [] => false
  | t :: ts, c :: cs => tokMatches t c && matchHere ts cs

/-- `re.search`: whether the token list matches at some position. -/
def reSearch (ts : List RTok) : List Char → Bool
  | [] => matchHere ts []
  | c :: cs => matchHere ts (c :: cs) || reSearch ts cs

/-- Reading a pattern string as a token list of the modelled fragment;
`none` when the pattern uses a metacharacter other than `.`. -/
def parsePat : List Char → Option (List RTok)
  | [] => some []
  | c :: cs =>
    if c = '.' then (parsePat cs).map (fun ts => RTok.dot :: ts)
    else if isRegexMeta c then none
    else (parsePat cs).map (fun ts => RTok.lit c :: ts)

/-- The Inventory view's filter (`app.py` lines 303-308): the empty query
leaves the store unchanged (`if search_term:` is false); otherwise a row is
kept when the query, read as a regular expression, matches its `name` or its
`category` case-insensitively.  `none` when the query is outside the modelled
regex fragment. -/
def df_display (store : List Record) (search_term : String) :
    Option (List Record) :=
  if search_term = "" then some store
  else
    (parsePat search_term.data).map (fun ts =>
      store.filter (fun r =>
        reSearch ts r.name.data || reSearch ts r.category.data))

/-- The spec's wording of the filter predicate: `needle` occurs in `hay` as a
case-insensitive substring. -/
def containsCI (hay needle : String) : Bool :=
  decide (needle.data.map Char.toLower <:+: hay.data.map Char.toLower)

/-! ## Theorems -/

/-- C5: `add` with an empty name fails with a validation error (the error flag
of the result is `true`) and is atomic on failure: the returned state — the
in-memory store, the `item_value` column flag and the backing file alike — is
exactly the input state, so nothing is added and nothing is written to disk. -/
theorem c5_add_empty_name_atomic (st : AppState) (cat : String) (p : Rat)
    (q cm : Int) : add_item_callback st "" cat p q cm = (st, true) := by
  simp [add_item_callback]

/-- C6: on a backing file that exists but cannot be read or parsed as
expected, `load_data` surfaces the error (`st.error` shown) and returns an
empty store; the function is total on `LoadInput`, so the failure never
escapes this boundary. -/
theorem c6_load_failure_recovers :
    (load_data LoadInput.invalid).store = [] ∧
    (load_data LoadInput.invalid).errorShown = true :=
  ⟨rfl, rfl⟩

/-- C8: purge writes the empty JSON array to the backing file, and `load_data`
on that empty array returns an empty store — not the four seeded defaults,
which are produced only when the file is absent. -/
theorem c8_purge_then_load (st : AppState) :
    (purgeAll st).file = some [] ∧
    (load_data (LoadInput.records [])).store = [] ∧
    (load_data (LoadInput.records [])).store ≠ (load_data LoadInput.absent).store ∧
    (load_data LoadInput.absent).store = defaultData := by
  refine ⟨rfl, rfl, ?_, rfl⟩
  decide

/-- C10: `delete` keeps exactly the records whose `id` differs from the
deleted one, as an order-preserving sublist of the store, and every record
whose `id` differs survives with all of its fields unchanged. -/
theorem c10_delete_frame (st : AppState) (i : Int) :
    (delete_item_callback st i).inventory
      = st.inventory.filter (fun r => r.id != i) ∧
    (delete_item_callback st i).inventory.Sublist st.inventory ∧
    (∀ r ∈ st.inventory, r.id ≠ i → r ∈ (delete_item_callback st i).inventory) := by
  refine ⟨rfl, List.filter_sublist _, ?_⟩
  intro r hr hne
  exact List.mem_filter.mpr ⟨hr, by simpa using hne⟩

/-- Witness for C10 at a concrete store: the record with the other id
survives the deletion. -/
theorem c10_delete_frame_witness :
    (⟨2, "B", "CPU", 3, 2, none⟩ : Record) ∈
      (delete_item_callback
        ⟨[⟨1, "A", "GPU", 5, 1, none⟩, ⟨2, "B", "CPU", 3, 2, none⟩], false, none⟩
        1).inventory :=
  (c10_delete_frame
      ⟨[⟨1, "A", "GPU", 5, 1, none⟩, ⟨2, "B", "CPU", 3, 2, none⟩], false, none⟩
      1).2.2
    ⟨2, "B", "CPU", 3, 2, none⟩ (by decide) (by decide)

/-- C2 (code bug): after the Analytics view runs on the seeded defaults, a
delete persists records carrying a sixth key `item_value`, so the backing
file no longer holds five-key objects. -/
theorem c2_item_value_persisted :
    ((delete_item_callback (renderAnalytics ⟨defaultData, false, none⟩) 1).file.getD
        []).map (fun kvs => kvs.map Prod.fst)
      = [["id", "name", "category", "price", "qty", "item_value"],
         ["id", "name", "category", "price", "qty", "item_value"],
         ["id", "name", "category", "price", "qty", "item_value"]] ∧
    ("item_value" : String) ∉ (["id", "name", "category", "price", "qty"] : List String) :=
  ⟨rfl, by decide⟩

/-- C4 counterexample: on a store with distinct ids, a successful add whose
clock value `int(time.time() * 1000)` coincides with an existing id produces a
store with a duplicated id — nothing in the code compares the generated id
with the ids already present. -/
theorem c4_id_collision :
    (([⟨1700, "Old", "GPU", 5, 1, none⟩] : List Record).map Record.id).Nodup ∧
    (add_item_callback ⟨[⟨1700, "Old", "GPU", 5, 1, none⟩], false, none⟩
        "New" "Other" 2 1 1700).2 = false ∧
    ¬ ((((add_item_callback ⟨[⟨1700, "Old", "GPU", 5, 1, none⟩], false, none⟩
        "New" "Other" 2 1 1700).1).inventory.map Record.id).Nodup) := by
  refine ⟨by decide, by decide, by decide⟩

/-- C4 (amended): a successful add preserves pairwise-distinct ids *provided*
the generated timestamp id differs from every id already in the store. -/
theorem c4_add_preserves_unique_ids (st : AppState) (n c : String) (p : Rat)
    (q cm : Int) (hname : n ≠ "") (hfresh : cm ∉ st.inventory.map Record.id)
    (hnodup : (st.inventory.map Record.id).Nodup) :
    (((add_item_callback st n c p q cm).1).inventory.map Record.id).Nodup := by
  simp only [add_item_callback, if_neg hname, List.map_cons, List.nodup_cons]
  exact ⟨hfresh, hnodup⟩

/-- Witness for C4 (amended) at a concrete store and a fresh clock value. -/
theorem c4_add_preserves_unique_ids_witness :
    ((((add_item_callback ⟨[⟨1, "GeForce RTX 4090", "GPU", 5, 1, none⟩], false, none⟩
        "Widget" "Other" 2 1 2).1).inventory.map Record.id)).Nodup :=
  c4_add_preserves_unique_ids
    ⟨[⟨1, "GeForce RTX 4090", "GPU", 5, 1, none⟩], false, none⟩
    "Widget" "Other" 2 1 2 (by decide) (by decide) (by decide)

/-- C7 counterexample: `load_data` only replaces unparsable values by `0`; a
well-formed file with a negative `price` and a negative `qty` loads with those
negative values intact, so the loaded records are not all non-negative. -/
theorem c7_negative_not_clamped :
    ¬ (∀ r ∈ (load_data (LoadInput.records
        [⟨7, "Gadget", "Other", RawVal.parsable (-5), RawVal.parsable (-3)⟩])).store,
        0 ≤ r.price ∧ 0 ≤ r.qty) := by
  decide

/-- C7 (amended): on a well-formed non-empty backing file, every loaded record
keeps `id`, `name` and `category` as stored, its `price` is the raw numeric
value when parsable and `0.0` otherwise, and its `qty` is the raw numeric
value truncated to an integer when parsable and `0` otherwise (no
non-negativity clamping occurs). -/
theorem c7_load_coerces (rs : List RawRecord) (h : rs ≠ []) :
    (load_data (LoadInput.records rs)).store
      = rs.map (fun raw =>
          { id := raw.id, name := raw.name, category := raw.category,
            price := match raw.price with
              | .parsable q => q
              | .unparsable => 0,
            qty := match raw.qty with
              | .parsable q => ratTrunc q
              | .unparsable => 0,
            item_value := none }) := by
  cases rs with
  | nil => exact absurd rfl h
  | cons r rest => rfl

/-- Witness for C7 (amended) on a concrete one-record file. -/
theorem c7_load_coerces_witness :
    (load_data (LoadInput.records
        [⟨7, "Gadget", "Other", RawVal.parsable (-5), RawVal.unparsable⟩])).store
      = [⟨7, "Gadget", "Other", -5, 0, none⟩] :=
  c7_load_coerces
    [⟨7, "Gadget", "Other", RawVal.parsable (-5), RawVal.unparsable⟩]
    (by decide)

/-- C9: a successful add whose fresh id does not collide with any existing id,
followed by a delete of that id, leaves the backing file holding exactly what
`save_data` would write for the original store. -/
theorem c9_add_then_delete_roundtrip (st : AppState) (n c : String) (p : Rat)
    (q cm : Int) (hn : n ≠ "") (hfresh : cm ∉ st.inventory.map Record.id) :
    (delete_item_callback ((add_item_callback st n c p q cm).1) cm).file
      = some (save_data st.inventory st.hasItemValue) := by
  have hne : ∀ a ∈ st.inventory, (a.id != cm) = true := by
    intro a ha
    simp only [bne_iff_ne, ne_eq]
    intro hEq
    exact hfresh (hEq ▸ List.mem_map.mpr ⟨a, ha, rfl⟩)
  simp [add_item_callback, if_neg hn, delete_item_callback, List.filter_cons,
        List.filter_eq_self.mpr hne]

/-- Witness for C9 at a concrete store, name and fresh clock value. -/
theorem c9_add_then_delete_roundtrip_witness :
    (delete_item_callback
        ((add_item_callback ⟨[⟨1, "A", "GPU", 5, 2, none⟩], false, none⟩
            "B" "CPU" 3 1 2).1) 2).file
      = some (save_data [⟨1, "A", "GPU", 5, 2, none⟩] false) :=
  c9_add_then_delete_roundtrip ⟨[⟨1, "A", "GPU", 5, 2, none⟩], false, none⟩
    "B" "CPU" 3 1 2 (by decide) (by decide)

/-- A pattern of plain literals matches at the front of `s` exactly when its
lowercasing is a prefix of the lowercasing of `s`. -/
theorem matchHere_lits (cs : List Char) (s : List Char) :
    matchHere (cs.map RTok.lit) s = true ↔
      cs.map Char.toLower <+: s.map Char.toLower := by
  induction cs generalizing s with
  | nil => simp [matchHere]
  | cons c cs ih =>
      cases s with
      | nil => simp [matchHere]
      | cons d s =>
          simp [matchHere, tokMatches, List.cons_prefix_cons, ih]

/-- A pattern of plain literals is found by `re.search` exactly when its
lowercasing is an infix of the lowercasing of the searched text. -/
theorem reSearch_lits (cs : List Char) (s : List Char) :
    reSearch (cs.map RTok.lit) s = true ↔
      cs.map Char.toLower <:+: s.map Char.toLower := by
  induction s with
  | nil => simp [reSearch, matchHere_lits]
  | cons d s ih => simp [reSearch, matchHere_lits, ih, List.infix_cons_iff]

/-- A query with no regex metacharacter parses to a pattern of literals. -/
theorem parsePat_of_noMeta (cs : List Char)
    (h : ∀ c ∈ cs, isRegexMeta c = false) :
    parsePat cs = some (cs.map RTok.lit) := by
  induction cs with
  | nil => rfl
  | cons c cs ih =>
      have hc : isRegexMeta c = false := h c (List.mem_cons_self c cs)
      have hdot : c ≠ '.' := by
        intro hEq
        rw [hEq] at hc
        exact absurd hc (by decide)
      have ih' := ih (fun a ha => h a (List.mem_cons_of_mem c ha))
      simp [parsePat, hdot, hc, ih']

/-- For metacharacter-free queries the code's regex search coincides with the
spec's case-insensitive substring containment. -/
theorem reSearch_eq_containsCI (q s : String) :
    reSearch (q.data.map RTok.lit) s.data = containsCI s q := by
  rw [Bool.eq_iff_iff, reSearch_lits]
  simp [containsCI]

/-- C1 counterexample: `str.contains` reads the query as a regular expression
(`regex=True` is pandas' default), so the query `"."` keeps a record whose
fields do not contain `"."` as a substring — the filter is not substring
containment. -/
theorem c1_regex_not_substring :
    df_display [⟨1, "axb", "GPU", 5, 1, none⟩] "."
      ≠ some (([⟨1, "axb", "GPU", 5, 1, none⟩] : List Record).filter
          (fun r => containsCI r.name "." || containsCI r.category ".")) := by
  decide

/-- C1 (amended): the empty query returns the store unchanged, and every
non-empty query that contains no regex metacharacter returns exactly the
order-preserving subsequence of records whose name or category contains the
query as a case-insensitive substring (logical OR over the two fields). -/
theorem c1_filter_amended (store : List Record) (q : String) :
    df_display store "" = some store ∧
    (q ≠ "" → (∀ c ∈ q.data, isRegexMeta c = false) →
      df_display store q
        = some (store.filter
            (fun r => containsCI r.name q || containsCI r.category q))) := by
  refine ⟨rfl, ?_⟩
  intro hq hmeta
  simp only [df_display, if_neg hq, parsePat_of_noMeta q.data hmeta,
             Option.map_some']
  congr 1
  refine List.filter_congr ?_
  intro r _
  rw [reSearch_eq_containsCI, reSearch_eq_containsCI]

/-- Witness for C1 (amended) at a concrete store and the query "gpu". -/
theorem c1_filter_amended_witness :
    df_display [⟨1, "GeForce RTX 4090", "GPU", 109990, 3, none⟩,
                ⟨2, "MacBook Pro M2", "Laptop", 84990, 8, none⟩] "gpu"
      = some (([⟨1, "GeForce RTX 4090", "GPU", 109990, 3, none⟩,
                ⟨2, "MacBook Pro M2", "Laptop", 84990, 8, none⟩] : List Record).filter
          (fun r => containsCI r.name "gpu" || containsCI r.category "gpu")) :=
  (c1_filter_amended
      [⟨1, "GeForce RTX 4090", "GPU", 109990, 3, none⟩,
       ⟨2, "MacBook Pro M2", "Laptop", 84990, 8, none⟩] "gpu").2
    (by decide) (by decide)

end ElectroVault
